import Mathlib

/-!
Verification of the ComputationDomain hierarchy of the allolib framework.

The repository sources provide the class header for `ComputationDomain`,
`SynchronousDomain`, `AsynchronousDomain` and `AsynchronousThreadDomain`,
including the full template body of `ComputationDomain::newSubDomain`, the
inline accessors `timeDelta` / `setTimeDelta` and the member declarations
with their default initializers.  The out-of-line member function bodies
(`init`, `cleanup`, `addSubDomain`, `removeSubDomain`,
`initializeSubdomains`, `tickSubdomains`, `cleanupSubdomains`, `getDomain`,
`addPublicDomain`, `SynchronousDomain::tick`) are not part of the sources;
those operations are modelled from the specification, as marked in their
doc comments.

Subdomain objects are identified by natural numbers.  The success or
failure of the virtual `init` / `tick` / `cleanup` calls on a subdomain is
subclass behaviour outside the embedded code, so it is a parameter
(`SubBehavior`).
-/

namespace Allolib

/-- One entry of `mSubDomainList`: the subdomain's identity paired with its
prepend flag, mirroring the member declaration
`std::vector<std::pair<std::shared_ptr<SynchronousDomain>, bool>> mSubDomainList`. -/
abbrev SubEntry : Type := Nat × Bool

/-- Observable state of a `ComputationDomain`, embedding the data members
declared in the header with their default member initializers:
`mSubDomainList` (empty), `mInitialized{false}` and `mTimeDrift{0.0}`. -/
structure DomainState where
  mSubDomainList : List SubEntry := []
  mInitialized : Bool := false
  mTimeDrift : Float := 0.0

/-- A newly constructed `ComputationDomain`: every member holds its default
initializer value from the header. -/
def freshDomain : DomainState := {}

/-- Source, header line 128: `double timeDelta() { return mTimeDrift; }`. -/
def timeDelta (st : DomainState) : Float := st.mTimeDrift

/-- Source, header line 130:
`void setTimeDelta(double delta) { mTimeDrift = delta; }`. -/
def setTimeDelta (st : DomainState) (delta : Float) : DomainState :=
  { st with mTimeDrift := delta }

/-- Success of the virtual `init` / `tick` / `cleanup` calls on each
subdomain object, indexed by the subdomain's identity.  These are virtual
methods implemented by subclasses outside the embedded sources, so they are
parameters of the model. -/
structure SubBehavior where
  initOk : Nat → Bool
  tickOk : Nat → Bool
  cleanupOk : Nat → Bool

/-- Modelled from the spec: the bodies of `initializeSubdomains`,
`tickSubdomains` and `cleanupSubdomains` are not in the sources (only their
declarations are).  Spec section 4.2: they iterate the subset of
`subDomainList` matching the `pre` flag, in list order, calling the
corresponding operation on each; iteration continues past failures and the
aggregate result is the conjunction of all individual results.
`runOnSubdomains op entries pre` returns the identities attempted, in
order, together with the aggregate result. -/
def runOnSubdomains (op : Nat → Bool) : List SubEntry → Bool → List Nat × Bool
  | [], _ => ([], true)
  | (id, flag) :: rest, pre =>
    let r := runOnSubdomains op rest pre
    if flag == pre then (id :: r.1, op id && r.2) else r

/-- Modelled from the spec: `initializeSubdomains(pre)` (body not in the
sources) initializes the subdomains whose flag matches `pre`, attempting
all of them and returning true only if every one succeeded. -/
def initializeSubdomains (beh : SubBehavior) (st : DomainState) (pre : Bool) :
    List Nat × Bool :=
  runOnSubdomains beh.initOk st.mSubDomainList pre

/-- Modelled from the spec: `tickSubdomains(pre)` (body not in the sources)
ticks the subdomains whose flag matches `pre`, attempting all of them and
returning true only if every one succeeded. -/
def tickSubdomains (beh : SubBehavior) (st : DomainState) (pre : Bool) :
    List Nat × Bool :=
  runOnSubdomains beh.tickOk st.mSubDomainList pre

/-- Modelled from the spec: `cleanupSubdomains(pre)` (body not in the
sources) cleans up the subdomains whose flag matches `pre`, attempting all
of them and returning true only if every one succeeded. -/
def cleanupSubdomains (beh : SubBehavior) (st : DomainState) (pre : Bool) :
    List Nat × Bool :=
  runOnSubdomains beh.cleanupOk st.mSubDomainList pre

/-- Events observable during one tick pass of a domain. -/
inductive TickEvent where
  | child (id : Nat)
  | ownWork
deriving DecidableEq, Repr

/-- Modelled from the spec: the body of `SynchronousDomain::tick` is not in
the sources (only the declaration at header line 242).  Spec section 5:
within one tick pass, prepend children tick strictly before the owning
domain's own per-cycle work, which runs strictly before append children;
siblings within a group tick sequentially in list order.  `ownOk` is the
success of the domain's own per-cycle work (subclass behaviour).  Returns
the event trace of the pass and its aggregate result. -/
def SynchronousDomain.tick (beh : SubBehavior) (ownOk : Bool) (st : DomainState) :
    List TickEvent × Bool :=
  let pre := tickSubdomains beh st true
  let post := tickSubdomains beh st false
  (pre.1.map TickEvent.child ++ [TickEvent.ownWork] ++ post.1.map TickEvent.child,
    pre.2 && ownOk && post.2)

/-- Modelled from the spec: the body of `ComputationDomain::addSubDomain`
is not in the sources.  Spec section 4.2: inserts into `subDomainList` at
the front for `prepend = true` (front of the prepend list) and at the back
otherwise, preserving insertion order within the append group, and returns
true on success. -/
def addSubDomain (st : DomainState) (id : Nat) (prepend : Bool) :
    DomainState × Bool :=
  if prepend then
    ({ st with mSubDomainList := (id, true) :: st.mSubDomainList }, true)
  else
    ({ st with mSubDomainList := st.mSubDomainList ++ [(id, false)] }, true)

/-- Modelled from the spec: the body of `ComputationDomain::removeSubDomain`
is not in the sources.  Spec section 4.2: removes the given domain from the
list, or all domains if none is specified (`none` models the `nullptr`
default argument). -/
def removeSubDomain (st : DomainState) (sub : Option Nat) : DomainState × Bool :=
  match sub with
  | some id =>
    ({ st with mSubDomainList := st.mSubDomainList.filter (fun e => e.1 != id) }, true)
  | none => ({ st with mSubDomainList := [] }, true)

/-- Modelled from the spec: the body of `ComputationDomain::init` is not in
the sources.  Spec section 4.2: `init` runs `initializeSubdomains(pre=true)`,
its own setup, then `initializeSubdomains(pre=false)`, marks the domain
initialized, and returns false if any step failed; repeated calls succeed
without re-acquiring resources. -/
def ComputationDomain.init (beh : SubBehavior) (st : DomainState) :
    DomainState × Bool :=
  let r1 := initializeSubdomains beh st true
  let r2 := initializeSubdomains beh st false
  ({ st with mInitialized := true }, r1.2 && r2.2)

/-- Modelled from the spec: the body of `ComputationDomain::cleanup` is not
in the sources.  Spec section 4.2: `cleanup` cleans up both subdomain
groups, resets `initialized` to false, and tolerates repeated calls
(cleanup of an already-clean domain is a no-op returning success). -/
def ComputationDomain.cleanup (beh : SubBehavior) (st : DomainState) :
    DomainState × Bool :=
  let r1 := cleanupSubdomains beh st true
  let r2 := cleanupSubdomains beh st false
  ({ st with mInitialized := false }, r1.2 && r2.2)

/-- The process-wide registry `mPublicDomains`, mirroring the member
declaration `std::vector<std::pair<ComputationDomain *, std::string>>`,
with domains identified by natural numbers. -/
abbrev PublicRegistry : Type := List (Nat × String)

/-- Modelled from the spec: the body of `addPublicDomain` is not in the
sources.  Spec section 3: the registry is populated by `addPublicDomain`
and never automatically pruned, so registration appends the (domain, tag)
entry. -/
def addPublicDomain (reg : PublicRegistry) (domain : Nat) (tag : String) :
    PublicRegistry :=
  reg ++ [(domain, tag)]

/-- Modelled from the spec: the body of `ComputationDomain::getDomain` is
not in the sources (only the declaration at header line 161).  Spec
section 4.2: process-wide lookup returning the index-th registered domain
whose tag matches, or a null result if not found (`none` models null). -/
def getDomain (reg : PublicRegistry) (tag : String) (index : Nat) : Option Nat :=
  ((reg.filter (fun e => e.2 == tag)).map Prod.fst)[index]?

/-- The compile-time type argument `DomainType` of `newSubDomain`, as the
template body observes it: whether the concrete type derives from
`SynchronousDomain` (what the `dynamic_cast` at header line 333 tests), and
whether `newDomain->init(this)` succeeds (virtual, subclass-defined). -/
structure DomainTypeInfo where
  isSynchronousDomain : Bool
  initSucceeds : Bool

/-- Calls into the domain tree made by `newSubDomain`. -/
inductive SubCall where
  | initCall (id : Nat)
  | addCall (id : Nat) (prepend : Bool)
deriving DecidableEq, Repr

/-- The handle returned by `newSubDomain`: the new subdomain's identity and
whether its `init` has run successfully. -/
structure SubDomainHandle where
  id : Nat
  initialized : Bool
deriving DecidableEq, Repr

/-- Source, header lines 330 to 348: the template body of
`ComputationDomain::newSubDomain<DomainType>(prepend)`.  It constructs a
new object of the requested type (`newId` models the fresh allocation) and
throws a `std::runtime_error` if the object is not a `SynchronousDomain`.
Otherwise, when `mInitialized` holds it calls `newDomain->init(this)` and
on success adds the object via `addSubDomain`, while on failure it drops
the handle (`newDomain = nullptr`, modelled by `none`) without adding; when
the parent is not initialized it adds the object without initializing it.
An error result carries the exception message, the parent state at the
throw, and the calls made before it; an ok result carries the returned
handle, the final parent state, and the calls made. -/
def newSubDomain (T : DomainTypeInfo) (st : DomainState) (newId : Nat)
    (prepend : Bool) :
    Except (String × DomainState × List SubCall)
      (Option SubDomainHandle × DomainState × List SubCall) :=
  if !T.isSynchronousDomain then
    .error ("Subdomain must be a subclass of SynchronousDomain", st, [])
  else if st.mInitialized then
    if T.initSucceeds then
      .ok (some ⟨newId, true⟩, (addSubDomain st newId prepend).1,
        [.initCall newId, .addCall newId prepend])
    else
      .ok (none, st, [.initCall newId])
  else
    .ok (some ⟨newId, false⟩, (addSubDomain st newId prepend).1,
      [.addCall newId prepend])

/-- The prepend group of a domain: identities of the entries of
`mSubDomainList` whose flag is set, in list order. -/
def prependGroup (st : DomainState) : List Nat :=
  (st.mSubDomainList.filter (fun e => e.2 == true)).map Prod.fst

/-- The append group of a domain: identities of the entries of
`mSubDomainList` whose flag is clear, in list order. -/
def appendGroup (st : DomainState) : List Nat :=
  (st.mSubDomainList.filter (fun e => e.2 == false)).map Prod.fst

/-- A sequence of `addSubDomain` calls applied in order. -/
def applyAddSubDomains (adds : List (Nat × Bool)) (st : DomainState) : DomainState :=
  adds.foldl (fun s a => (addSubDomain s a.1 a.2).1) st

/-- A subclass behaviour in which every virtual call succeeds. -/
def allOkBehavior : SubBehavior :=
  ⟨fun _ => true, fun _ => true, fun _ => true⟩

/-- A concrete domain holding one prepend subdomain (identity 1) and one
append subdomain (identity 2). -/
def demoState : DomainState :=
  { mSubDomainList := [(1, true), (2, false)] }

/-- A domain with no subdomains whose `mInitialized` flag is set. -/
def initializedFresh : DomainState :=
  { mInitialized := true }

theorem runOnSubdomains_eq (op : Nat → Bool) (l : List SubEntry) (pre : Bool) :
    runOnSubdomains op l pre =
      ((l.filter (fun e => e.2 == pre)).map Prod.fst,
        (l.filter (fun e => e.2 == pre)).all (fun e => op e.1)) := by
  induction l with
  | nil => rfl
  | cons e rest ih =>
    obtain ⟨id, flag⟩ := e
    by_cases h : flag = pre <;>
      simp [runOnSubdomains, h, List.filter_cons, ih]

theorem prependGroup_add_true (st : DomainState) (id : Nat) :
    prependGroup ((addSubDomain st id true).1) = id :: prependGroup st := by
  simp [addSubDomain, prependGroup]

theorem prependGroup_add_false (st : DomainState) (id : Nat) :
    prependGroup ((addSubDomain st id false).1) = prependGroup st := by
  simp [addSubDomain, prependGroup, List.filter_append]

theorem appendGroup_add_true (st : DomainState) (id : Nat) :
    appendGroup ((addSubDomain st id true).1) = appendGroup st := by
  simp [addSubDomain, appendGroup]

theorem appendGroup_add_false (st : DomainState) (id : Nat) :
    appendGroup ((addSubDomain st id false).1) = appendGroup st ++ [id] := by
  simp [addSubDomain, appendGroup, List.filter_append]

theorem applyAddSubDomains_groups (adds : List (Nat × Bool)) (st : DomainState) :
    prependGroup (applyAddSubDomains adds st)
        = ((adds.filter (fun a => a.2 == true)).map Prod.fst).reverse
            ++ prependGroup st
      ∧ appendGroup (applyAddSubDomains adds st)
        = appendGroup st ++ (adds.filter (fun a => a.2 == false)).map Prod.fst := by
  induction adds generalizing st with
  | nil => simp [applyAddSubDomains]
  | cons a rest ih =>
    obtain ⟨id, flag⟩ := a
    have hstep : applyAddSubDomains ((id, flag) :: rest) st
        = applyAddSubDomains rest ((addSubDomain st id flag).1) := rfl
    cases flag
    · rw [hstep]
      obtain ⟨ihp, iha⟩ := ih ((addSubDomain st id false).1)
      constructor
      · rw [ihp, prependGroup_add_false]
        simp [List.filter_cons]
      · rw [iha, appendGroup_add_false]
        simp [List.filter_cons]
    · rw [hstep]
      obtain ⟨ihp, iha⟩ := ih ((addSubDomain st id true).1)
      constructor
      · rw [ihp, prependGroup_add_true]
        simp [List.filter_cons]
      · rw [iha, appendGroup_add_true]
        simp [List.filter_cons]

/-- C1: for every type passed to `ComputationDomain::newSubDomain`, if the
constructed object is not a `SynchronousDomain`, the call throws the
`std::runtime_error` immediately (the result is the error value, never an
ok value), so the object is never silently added as a subdomain and no
soft failure is returned. -/
theorem newSubDomain_nonSynchronous_throws (T : DomainTypeInfo)
    (st : DomainState) (newId : Nat) (prepend : Bool)
    (h : T.isSynchronousDomain = false) :
    newSubDomain T st newId prepend
      = .error ("Subdomain must be a subclass of SynchronousDomain", st, []) := by
  simp [newSubDomain, h]

theorem newSubDomain_nonSynchronous_throws_witness :
    (DomainTypeInfo.mk false true).isSynchronousDomain = false
    ∧ newSubDomain ⟨false, true⟩ freshDomain 0 false
        = .error ("Subdomain must be a subclass of SynchronousDomain",
            freshDomain, []) :=
  ⟨rfl, newSubDomain_nonSynchronous_throws ⟨false, true⟩ freshDomain 0 false rfl⟩

/-- C2: for a domain with a prepend child `c1` and an append child `c2`,
one tick pass ticks `c1` strictly before the domain's own work, which runs
strictly before `c2`; siblings within each group are ticked sequentially in
`subDomainList` order (the trace is exactly the prepend group in list
order, then the own work, then the append group in list order). -/
theorem tick_prepend_before_own_before_append (beh : SubBehavior)
    (ownOk : Bool) (st : DomainState) (c1 c2 : Nat)
    (h1 : (c1, true) ∈ st.mSubDomainList)
    (h2 : (c2, false) ∈ st.mSubDomainList) :
    (SynchronousDomain.tick beh ownOk st).1
        = (prependGroup st).map TickEvent.child ++ [TickEvent.ownWork]
            ++ (appendGroup st).map TickEvent.child
      ∧ List.Sublist [TickEvent.child c1, TickEvent.ownWork, TickEvent.child c2]
          (SynchronousDomain.tick beh ownOk st).1 := by
  have htrace : (SynchronousDomain.tick beh ownOk st).1
      = (prependGroup st).map TickEvent.child ++ [TickEvent.ownWork]
          ++ (appendGroup st).map TickEvent.child := by
    simp [SynchronousDomain.tick, tickSubdomains, runOnSubdomains_eq,
      prependGroup, appendGroup]
  refine ⟨htrace, ?_⟩
  rw [htrace]
  have hc1m : c1 ∈ prependGroup st := by
    refine List.mem_map.mpr ⟨(c1, true), ?_, rfl⟩
    exact List.mem_filter.mpr ⟨h1, rfl⟩
  have hc2m : c2 ∈ appendGroup st := by
    refine List.mem_map.mpr ⟨(c2, false), ?_, rfl⟩
    exact List.mem_filter.mpr ⟨h2, rfl⟩
  have s1 : List.Sublist [TickEvent.child c1]
      ((prependGroup st).map TickEvent.child) :=
    List.singleton_sublist.mpr (List.mem_map_of_mem _ hc1m)
  have s2 : List.Sublist [TickEvent.child c2]
      ((appendGroup st).map TickEvent.child) :=
    List.singleton_sublist.mpr (List.mem_map_of_mem _ hc2m)
  have smid : List.Sublist [TickEvent.ownWork] [TickEvent.ownWork] :=
    List.Sublist.refl _
  exact (s1.append smid).append s2

theorem tick_prepend_before_own_before_append_witness :
    (1, true) ∈ demoState.mSubDomainList
    ∧ (2, false) ∈ demoState.mSubDomainList
    ∧ ((SynchronousDomain.tick allOkBehavior true demoState).1
          = (prependGroup demoState).map TickEvent.child ++ [TickEvent.ownWork]
              ++ (appendGroup demoState).map TickEvent.child
        ∧ List.Sublist [TickEvent.child 1, TickEvent.ownWork, TickEvent.child 2]
            (SynchronousDomain.tick allOkBehavior true demoState).1) :=
  ⟨by decide, by decide,
    tick_prepend_before_own_before_append allOkBehavior true demoState 1 2
      (by decide) (by decide)⟩

/-- C3: on a fresh domain, `init` called twice returns true both times and
leaves `mInitialized` true; `cleanup` then called twice returns true both
times and leaves `mInitialized` false, for every subclass behaviour (no
double acquisition or release is possible: the operations only toggle the
flag and visit the, here empty, subdomain list). -/
theorem init_cleanup_repeated_ok (beh : SubBehavior) :
    ((ComputationDomain.init beh freshDomain).2 = true
      ∧ (ComputationDomain.init beh
          (ComputationDomain.init beh freshDomain).1).2 = true
      ∧ (ComputationDomain.init beh
          (ComputationDomain.init beh freshDomain).1).1.mInitialized = true)
    ∧ ((ComputationDomain.cleanup beh
          (ComputationDomain.init beh
            (ComputationDomain.init beh freshDomain).1).1).2 = true
      ∧ (ComputationDomain.cleanup beh
          (ComputationDomain.cleanup beh
            (ComputationDomain.init beh
              (ComputationDomain.init beh freshDomain).1).1).1).2 = true
      ∧ (ComputationDomain.cleanup beh
          (ComputationDomain.cleanup beh
            (ComputationDomain.init beh
              (ComputationDomain.init beh freshDomain).1).1).1).1.mInitialized
          = false) :=
  ⟨⟨rfl, rfl, rfl⟩, rfl, rfl, rfl⟩

/-- C4: with a legitimate `SynchronousDomain` type, `newSubDomain` on an
already-initialized parent immediately calls the new subdomain's `init`
(the handle comes back initialized and the call trace records the init
call); if that init fails it returns the null handle and does not add the
subdomain (the parent state is unchanged); if it succeeds the subdomain is
added via `addSubDomain` and its handle returned.  On a not-yet-initialized
parent the subdomain is added via `addSubDomain` without being initialized
and its handle is returned. -/
theorem newSubDomain_init_add_behavior (T : DomainTypeInfo)
    (st : DomainState) (newId : Nat) (prepend : Bool)
    (h : T.isSynchronousDomain = true) :
    (st.mInitialized = true → T.initSucceeds = true →
        newSubDomain T st newId prepend
          = .ok (some ⟨newId, true⟩, (addSubDomain st newId prepend).1,
              [.initCall newId, .addCall newId prepend]))
    ∧ (st.mInitialized = true → T.initSucceeds = false →
        newSubDomain T st newId prepend = .ok (none, st, [.initCall newId]))
    ∧ (st.mInitialized = false →
        newSubDomain T st newId prepend
          = .ok (some ⟨newId, false⟩, (addSubDomain st newId prepend).1,
              [.addCall newId prepend])) := by
  refine ⟨?_, ?_, ?_⟩
  · intro hi hs
    simp [newSubDomain, h, hi, hs]
  · intro hi hs
    simp [newSubDomain, h, hi, hs]
  · intro hi
    simp [newSubDomain, h, hi]

theorem newSubDomain_init_add_behavior_witness :
    (DomainTypeInfo.mk true true).isSynchronousDomain = true
    ∧ initializedFresh.mInitialized = true
    ∧ (DomainTypeInfo.mk true true).initSucceeds = true
    ∧ newSubDomain ⟨true, true⟩ initializedFresh 5 false
        = .ok (some ⟨5, true⟩, (addSubDomain initializedFresh 5 false).1,
            [.initCall 5, .addCall 5 false]) :=
  ⟨rfl, rfl, rfl,
    (newSubDomain_init_add_behavior ⟨true, true⟩ initializedFresh 5 false
      rfl).1 rfl rfl⟩

/-- C5: for every subdomain list and flag `pre`, each of
`initializeSubdomains(pre)`, `tickSubdomains(pre)` and
`cleanupSubdomains(pre)` attempts its operation on every entry of
`subDomainList` whose prepend flag matches `pre` (the attempted trace is
exactly the matching entries in list order, with no short-circuit on
failure), and returns true if and only if every attempted entry
succeeded. -/
theorem subdomainIterators_attempt_all (beh : SubBehavior)
    (st : DomainState) (pre : Bool) :
    ((initializeSubdomains beh st pre).1
        = (st.mSubDomainList.filter (fun e => e.2 == pre)).map Prod.fst
      ∧ ((initializeSubdomains beh st pre).2 = true ↔
          ∀ e ∈ st.mSubDomainList.filter (fun e => e.2 == pre),
            beh.initOk e.1 = true))
    ∧ ((tickSubdomains beh st pre).1
        = (st.mSubDomainList.filter (fun e => e.2 == pre)).map Prod.fst
      ∧ ((tickSubdomains beh st pre).2 = true ↔
          ∀ e ∈ st.mSubDomainList.filter (fun e => e.2 == pre),
            beh.tickOk e.1 = true))
    ∧ ((cleanupSubdomains beh st pre).1
        = (st.mSubDomainList.filter (fun e => e.2 == pre)).map Prod.fst
      ∧ ((cleanupSubdomains beh st pre).2 = true ↔
          ∀ e ∈ st.mSubDomainList.filter (fun e => e.2 == pre),
            beh.cleanupOk e.1 = true)) := by
  simp only [initializeSubdomains, tickSubdomains, cleanupSubdomains,
    runOnSubdomains_eq, List.all_eq_true]
  exact ⟨⟨trivial, trivial⟩, ⟨trivial, trivial⟩, trivial, trivial⟩

/-- C6: over any sequence of `addSubDomain` calls, a prepend insertion
lands at the front of the prepend group (most-recent-prepend-first, so the
group is the reverse of the prepend insertion order followed by the
pre-existing prepend entries), append insertions preserve insertion order
within the append group, and `tickSubdomains(pre=true)` visits the prepend
group in exactly the resulting order. -/
theorem addSubDomain_ordering (beh : SubBehavior)
    (adds : List (Nat × Bool)) (st : DomainState) :
    prependGroup (applyAddSubDomains adds st)
        = ((adds.filter (fun a => a.2 == true)).map Prod.fst).reverse
            ++ prependGroup st
      ∧ appendGroup (applyAddSubDomains adds st)
        = appendGroup st ++ (adds.filter (fun a => a.2 == false)).map Prod.fst
      ∧ (tickSubdomains beh (applyAddSubDomains adds st) true).1
        = prependGroup (applyAddSubDomains adds st) := by
  obtain ⟨hp, ha⟩ := applyAddSubDomains_groups adds st
  refine ⟨hp, ha, ?_⟩
  simp [tickSubdomains, runOnSubdomains_eq, prependGroup]

/-- C7: removing a contained subdomain `S` removes it and leaves every
other subdomain present with the relative order of the remaining entries
unchanged (the resulting list is exactly the original list restricted to
the non-`S` entries); `removeSubDomain` with no argument (the `nullptr`
default) removes all subdomains. -/
theorem removeSubDomain_frame (st : DomainState) (S : Nat)
    (_hmem : S ∈ st.mSubDomainList.map Prod.fst) :
    (∀ e ∈ ((removeSubDomain st (some S)).1).mSubDomainList, e.1 ≠ S)
    ∧ ((removeSubDomain st (some S)).1).mSubDomainList
        = st.mSubDomainList.filter (fun e => e.1 != S)
    ∧ ((removeSubDomain st none).1).mSubDomainList = [] := by
  refine ⟨?_, rfl, rfl⟩
  intro e he
  simp [removeSubDomain, List.mem_filter] at he
  exact he.2

theorem removeSubDomain_frame_witness :
    1 ∈ demoState.mSubDomainList.map Prod.fst
    ∧ ((∀ e ∈ ((removeSubDomain demoState (some 1)).1).mSubDomainList, e.1 ≠ 1)
      ∧ ((removeSubDomain demoState (some 1)).1).mSubDomainList
          = demoState.mSubDomainList.filter (fun e => e.1 != 1)
      ∧ ((removeSubDomain demoState none).1).mSubDomainList = []) :=
  ⟨by decide, removeSubDomain_frame demoState 1 (by decide)⟩

/-- C8: registering a domain under a tag makes `getDomain(tag, index)`
return it at the index following the previously registered matches (for a
fresh tag, `getDomain(tag, 0)` returns the registered domain itself), and
`getDomain` returns the null result when no registered domain matches the
tag. -/
theorem getDomain_registry_lookup :
    (∀ (reg : PublicRegistry) (d : Nat) (tag : String),
        getDomain (addPublicDomain reg d tag) tag
            ((reg.filter (fun e => e.2 == tag)).length) = some d)
    ∧ (∀ (reg : PublicRegistry) (tag : String) (i : Nat),
        (∀ e ∈ reg, e.2 ≠ tag) → getDomain reg tag i = none) := by
  constructor
  · intro reg d tag
    have hfil : (addPublicDomain reg d tag).filter (fun e => e.2 == tag)
        = reg.filter (fun e => e.2 == tag) ++ [(d, tag)] := by
      simp [addPublicDomain, List.filter_append]
    rw [getDomain, hfil, List.map_append]
    rw [show ((reg.filter (fun e => e.2 == tag)).length)
        = ((reg.filter (fun e => e.2 == tag)).map Prod.fst).length by
      rw [List.length_map]]
    simp
  · intro reg tag i h
    have hfil : reg.filter (fun e => e.2 == tag) = [] := by
      rw [List.filter_eq_nil_iff]
      intro e he
      simpa using h e he
    simp [getDomain, hfil]

theorem getDomain_registry_lookup_witness :
    getDomain (addPublicDomain [] 7 ("audio")) ("audio") 0 = some 7
    ∧ getDomain [] ("missing") 0 = none := by
  constructor
  · simpa using getDomain_registry_lookup.1 [] 7 ("audio")
  · exact getDomain_registry_lookup.2 [] ("missing") 0 (by simp)

/-- C9: a newly constructed `ComputationDomain` (all member initializers at
their header defaults) has `timeDelta() = 0`, and after `setTimeDelta(d)` a
subsequent `timeDelta()` returns `d`. -/
theorem timeDelta_default_and_set (st : DomainState) (d : Float) :
    timeDelta freshDomain = 0.0 ∧ timeDelta (setTimeDelta st d) = d :=
  ⟨rfl, rfl⟩

/-- C10: when the requested type is not a `SynchronousDomain` subtype, the
exception is thrown before any call to `init` or `addSubDomain` (the call
trace carried by the error is empty) and the parent state carried by the
error is exactly the pre-call state, so the failed operation is atomic. -/
theorem newSubDomain_throw_atomic (T : DomainTypeInfo)
    (st : DomainState) (newId : Nat) (prepend : Bool)
    (h : T.isSynchronousDomain = false) :
    ∃ msg : String, newSubDomain T st newId prepend = .error (msg, st, []) :=
  ⟨"Subdomain must be a subclass of SynchronousDomain", by
    simp [newSubDomain, h]⟩

theorem newSubDomain_throw_atomic_witness :
    (DomainTypeInfo.mk false false).isSynchronousDomain = false
    ∧ ∃ msg : String, newSubDomain ⟨false, false⟩ initializedFresh 3 true
        = .error (msg, initializedFresh, []) :=
  ⟨rfl, newSubDomain_throw_atomic ⟨false, false⟩ initializedFresh 3 true rfl⟩

end Allolib
